import Mathlib

/-!
Verification of the xk6-somnia RPC/WS load-test driver.

This file shallowly embeds the driver logic of the repository:

* `lib/rpc-client.js` (the modular JSON-RPC client `jsonCall` together with
  the concatenated `websocket-client.js` module `wsSub`),
* `lib/metrics.js` (`recordFailure` and friends),
* `lib/wallet-manager.js` (`buildRawTx`, `fundWallets`),
* the enhanced monolithic script `somnia_rpc_perf.js`
  (`detectTimeout`, its `jsonCall`, its `wsSub`, and the module-level
  write-scenario configuration validation).

JavaScript values are modelled as follows: numbers that are integers in
every reachable state (nonces, millisecond durations, status codes) become
`Nat`/`Int`; the float comparisons `x >= t * 0.95` and `x < t * 0.8` are
modelled exactly as the rational comparisons `95 * t <= 100 * x` and
`10 * x < 8 * t`; objects become structures; absent-or-null members become
`Option`; a thrown transport exception becomes an explicit constructor of
the per-attempt input.  Metric emission is modelled by returning the list
of emitted samples / by counters in a trace structure.
-/

namespace XkSomnia

/-- JavaScript `String.prototype.includes`: substring containment on the
underlying character list (the empty needle is always contained). -/
def charsContain (hay sub : List Char) : Bool :=
  match hay with
  | [] => sub.isEmpty
  | _ :: rest => sub.isPrefixOf hay || charsContain rest sub

/-- JavaScript `s.includes(sub)` for Lean strings. -/
def strIncludes (s sub : String) : Bool :=
  charsContain s.data sub.data

/-- JavaScript truthiness of a possibly-absent string (absent, `null` and
the empty string are falsy). -/
def jsTruthy : Option String → Bool
  | none => false
  | some s => !(s == "")

/-- JavaScript `s.slice(0, n)`: the first `n` characters of `s`. -/
def jsSlice (s : String) (n : Nat) : String :=
  String.mk (s.data.take n)

/-! ## JSON values and `JSON.stringify` (for `buildRpcRequest`) -/

/-- A JSON value, as produced by the driver when building request bodies. -/
inductive Json where
  | null : Json
  | bool (b : Bool) : Json
  | num (n : Int) : Json
  | str (s : String) : Json
  | arr (xs : List Json) : Json
  | obj (fields : List (String × Json)) : Json

/-- Minimal JSON string escaping (quote and backslash). -/
def escapeChar (c : Char) : String :=
  if c = '"' then "\\\""
  else if c = '\\' then "\\\\"
  else String.singleton c

/-- Escape and quote a JSON string literal. -/
def quoteStr (s : String) : String :=
  "\"" ++ String.join (s.data.map escapeChar) ++ "\""

mutual

/-- Serialization `JSON.stringify` on the `Json` model (object key order preserved,
as in JavaScript). -/
def stringify : Json → String
  | .null => "null"
  | .bool true => "true"
  | .bool false => "false"
  | .num n => toString n
  | .str s => quoteStr s
  | .arr xs => "[" ++ stringifyList xs ++ "]"
  | .obj fs => "\x7b" ++ stringifyFields fs ++ "\x7d"

/-- Comma-separated serialization of a JSON array body. -/
def stringifyList : List Json → String
  | [] => ""
  | [x] => stringify x
  | x :: y :: rest => stringify x ++ "," ++ stringifyList (y :: rest)

/-- Comma-separated serialization of a JSON object body. -/
def stringifyFields : List (String × Json) → String
  | [] => ""
  | [(k, v)] => quoteStr k ++ ":" ++ stringify v
  | (k, v) :: f :: rest => quoteStr k ++ ":" ++ stringify v ++ "," ++ stringifyFields (f :: rest)

end

/-- Function `buildRpcRequest(id, method, params)` from `lib/rpc-client.js`:
`JSON.stringify({ jsonrpc: "2.0", id, method, params: params || [] })`.
A `null`/`undefined` `params` is `none`. -/
def buildRpcRequest (id : Json) (method : String) (params : Option (List Json)) : String :=
  stringify (Json.obj
    [ ("jsonrpc", Json.str "2.0")
    , ("id", id)
    , ("method", Json.str method)
    , ("params", Json.arr (params.getD [])) ])

/-! ## JSON-RPC response envelopes and HTTP responses -/

/-- The `error` member of a JSON-RPC envelope: `{code:int, message:string}`. -/
structure RpcError where
  code : Int
  message : String
deriving Repr, DecidableEq

/-- A parsed JSON-RPC response envelope, as inspected by `jsonCall`.
`result`/`error` are doubly optional: the outer `Option` is
`hasOwnProperty`, the inner one distinguishes `null` from a value
(the payload of a non-null `result` is kept abstract as a `String`). -/
structure RpcResponse where
  jsonrpc : String
  id : String
  result : Option (Option String)
  error : Option (Option RpcError)
deriving Repr, DecidableEq

/-- Truthiness of `jsonResponse.error` (absent and `null` are falsy). -/
def errTruthy : Option (Option RpcError) → Option RpcError
  | some (some e) => some e
  | _ => none

/-- A k6 HTTP response as consumed by `jsonCall`: `error_code` is `0` when
absent, `json` is `some` when `res.json()` parses and `none` when it
throws, `timingsDuration` is `res.timings.duration` in milliseconds. -/
structure HttpResponse where
  error_code : Nat
  status : Nat
  contentType : String
  body : Option String
  timingsDuration : Nat
  json : Option RpcResponse
deriving Repr, DecidableEq

/-- What one HTTP POST attempt produces: either the transport threw
(`exn`) or a response object came back, `dur` milliseconds after the
request started. -/
inductive Attempt where
  | exn : Attempt
  | resp (r : HttpResponse) (dur : Nat) : Attempt

/-- The `response_complete` / structural validation of `jsonCall`
(`lib/rpc-client.js` lines 156-160 and the same checks in the monolithic
script): version tag is `"2.0"`, the echoed id matches, and the envelope
has a `result` or an `error` member. -/
def structureOk (v : RpcResponse) (reqId : String) : Bool :=
  (v.jsonrpc == "2.0") && (v.id == reqId) && (v.result.isSome || v.error.isSome)

/-- The `http_status_200` / `content_type_json` / `response_body_present`
checks shared by both `jsonCall` variants. -/
def httpBasicOk (r : HttpResponse) : Bool :=
  (r.status == 200) && strIncludes r.contentType "application/json" && jsTruthy r.body

/-- Checks `result_present && result_expectation_met`: the `result` member exists,
is not `null`, and the caller-supplied `expectFn` holds of `v.result`. -/
def resultOk (v : RpcResponse) (expect : Option (Option String) → Bool) : Bool :=
  (match v.result with | some (some _) => true | _ => false) && expect v.result

/-! ## `lib/metrics.js` -/

namespace Metrics

/-- A k6 tag set, as an ordered association list; later bindings override
earlier ones on lookup (JavaScript object spread). -/
abbrev Tags := List (String × String)

/-- Look up a tag, later (overriding) bindings first. -/
def lookupTag (ts : Tags) (k : String) : Option String :=
  match ts with
  | [] => none
  | (k2, v) :: rest => match lookupTag rest k with
    | some v2 => some v2
    | none => if k == k2 then some v else none

/-- One emitted metric sample `{metricName, value, tags}`. -/
structure Sample where
  metric : String
  value : Int
  tags : Tags

/-- Options object passed to `recordFailure`. -/
structure FailureOptions where
  retryAttempt : Option Nat := none
  isTimeout : Bool := false
  isHttpError : Bool := false

/-- Function `recordFailure(tags, reason, options)` from `lib/metrics.js` lines
68-100, modelled as the list of samples it emits.  `enrichedTags` extends
the given tags with `reason` truncated by `.slice(0, 100)` and
`retry_attempt` defaulting to `0`. -/
def recordFailure (tags : Tags) (reason : String) (options : FailureOptions) : List Sample :=
  let enrichedTags : Tags :=
    tags ++ [("reason", jsSlice reason 100), ("retry_attempt", toString (options.retryAttempt.getD 0))]
  [ ⟨"somnia_error_count", 1, enrichedTags⟩, ⟨"somnia_error_rate", 1, enrichedTags⟩ ]
  ++ (if jsTruthy (lookupTag tags "method") then [⟨"somnia_method_errors", 1, enrichedTags⟩] else [])
  ++ (if options.isTimeout then [⟨"somnia_timeout_rate", 1, enrichedTags⟩] else [])
  ++ (if options.isHttpError then [⟨"somnia_http_error_rate", 1, enrichedTags⟩] else [])

/-- The samples `recordFailure` emitted against one metric name. -/
def samplesFor (samples : List Sample) (metric : String) : List Sample :=
  samples.filter (fun s => s.metric == metric)

end Metrics

/-! ## `lib/rpc-client.js`: the modular `jsonCall` -/

namespace RpcClient

/-- The stage tag a terminal (non-retried) outcome of the modular
`jsonCall` carries. -/
inductive Outcome where
  | httpError : Outcome
  | jsonParseError : Outcome
  | malformedStructure : Outcome
  | protocolError (e : RpcError) : Outcome
  | resultValidationError : Outcome
  | success (v : String) : Outcome
deriving Repr, DecidableEq

/-- Classification of one attempt, before the retry decision: transport
exceptions and k6 `error_code`s are the retryable classes, everything else
is terminal for that call. -/
inductive AttemptClass where
  | retryExn : AttemptClass
  | retryErrorCode (c : Nat) : AttemptClass
  | terminal (o : Outcome) : AttemptClass
deriving Repr, DecidableEq

/-- The envelope stage of the modular `jsonCall`: structural validation,
then the `error` member (always a terminal failure), then result
validation, then success. -/
def classifyEnvelope (reqId : String) (expect : Option (Option String) → Bool)
    (v : RpcResponse) : AttemptClass :=
  if ¬ structureOk v reqId then .terminal .malformedStructure
  else match errTruthy v.error with
    | some e => .terminal (.protocolError e)
    | none =>
      if ¬ resultOk v expect then .terminal .resultValidationError
      else .terminal (.success (match v.result with | some (some s) => s | _ => ""))

/-- Classification of one attempt of the modular `jsonCall`
(`lib/rpc-client.js` lines 107-199), in source order: thrown transport
error, `res.error_code`, HTTP validation (status 200, JSON content type,
non-empty body, `timings.duration < 30000`), JSON parse, then the
envelope stage (`classifyEnvelope`). -/
def classifyAttempt (reqId : String) (expect : Option (Option String) → Bool) :
    Attempt → AttemptClass
  | .exn => .retryExn
  | .resp r _ =>
    if r.error_code ≠ 0 then .retryErrorCode r.error_code
    else if ¬ (httpBasicOk r && (r.timingsDuration < 30000 : Bool)) then .terminal .httpError
    else match r.json with
      | none => .terminal .jsonParseError
      | some v => classifyEnvelope reqId expect v

/-- The observable trace of one `jsonCall` invocation: number of HTTP
POSTs issued, retry-counter increments, `recordFailure` and
`recordSuccess` invocations, the inter-attempt sleeps (in milliseconds,
in order), and the value returned to the caller (`none` is the JavaScript
`undefined` that every failure path returns). -/
structure CallResult where
  posts : Nat
  retries : Nat
  failures : Nat
  successes : Nat
  sleeps : List Nat
  value : Option String
deriving Repr, DecidableEq

/-- What the call does once an attempt is terminal: record exactly one
failure (returning `undefined`) or one success (returning the result). -/
def settle : Outcome → CallResult
  | .success v => ⟨1, 0, 0, 1, [], some v⟩
  | _ => ⟨1, 0, 1, 0, [], none⟩

/-- The recursive retry loop of `jsonCall`, with the remaining retry
budget `fuel` in place of the source guard `retryAttempt < MAX_RETRIES`
(at attempt `a` the budget is `MAX_RETRIES - a`, so `0 < fuel` iff
`a < MAX_RETRIES`).  `env i` is what the `i`-th attempt observes,
`delay` is `RETRY_DELAY_MS`. -/
def jsonCallGo (delay : Nat) (env : Nat → Attempt) (reqId : String)
    (expect : Option (Option String) → Bool) : Nat → Nat → CallResult
  | fuel, a =>
    match classifyAttempt reqId expect (env a) with
    | .terminal o => settle o
    | _ =>
      match fuel with
      | 0 => ⟨1, 0, 1, 0, [], none⟩
      | fuel + 1 =>
        let rest := jsonCallGo delay env reqId expect fuel (a + 1)
        ⟨rest.posts + 1, rest.retries + 1, rest.failures, rest.successes,
          delay :: rest.sleeps, rest.value⟩

/-- Function `jsonCall(url, method, params, extraTags, expectFn, retryAttempt)`
starting from attempt `a` with `maxRetries` configured. -/
def jsonCallRun (maxRetries delay : Nat) (env : Nat → Attempt) (reqId : String)
    (expect : Option (Option String) → Bool) (a : Nat) : CallResult :=
  jsonCallGo delay env reqId expect (maxRetries - a) a

end RpcClient

/-! ## `somnia_rpc_perf.js` (enhanced monolithic script) -/

namespace Perf

/-- The body vocabulary scan of `detectTimeout`:
`body.includes("timeout") || body.includes("timed out") ||
body.includes("request timeout") || body.includes("gateway timeout")`,
guarded by the truthiness of `response.body`. -/
def bodyTimeoutVocab (body : Option String) : Bool :=
  jsTruthy body &&
    (strIncludes (body.getD "") "timeout" || strIncludes (body.getD "") "timed out" ||
     strIncludes (body.getD "") "request timeout" || strIncludes (body.getD "") "gateway timeout")

/-- Comparison `actualDuration >= timeoutMs * 0.95`, modelled exactly over the
integer millisecond quantities. -/
def durAtThreshold (actualDuration timeoutMs : Nat) : Bool :=
  95 * timeoutMs ≤ 100 * actualDuration

/-- Function `detectTimeout(response, requestStartTime, timeoutMs)` from
`somnia_rpc_perf.js` lines 838-891: the disjunction of the seven
indicators (`error_code_timeout`, `status_timeout`, `duration_timeout`,
`body_timeout`, `gateway_timeout`, `request_timeout`, `no_response`),
with `actualDuration` the elapsed time at the moment of the check. -/
def detectTimeout (response : HttpResponse) (actualDuration timeoutMs : Nat) : Bool :=
  let durGE := durAtThreshold actualDuration timeoutMs
  (response.error_code == 1050) ||
  ((response.status == 0) && durGE) ||
  durGE ||
  bodyTimeoutVocab response.body ||
  (response.status == 504) ||
  (response.status == 408) ||
  ((response.status == 0) && durGE)

/-- Classification of one attempt of the enhanced `jsonCall`: the timeout
and gas-estimation cases are distinguished from the modular client. -/
inductive PerfClass where
  | exnNetwork : PerfClass
  | timeout : PerfClass
  | networkErrorCode (c : Nat) : PerfClass
  | httpError : PerfClass
  | jsonParseError : PerfClass
  | malformedStructure : PerfClass
  | protocolError (e : RpcError) : PerfClass
  | estimateGasError (e : RpcError) : PerfClass
  | resultValidationError : PerfClass
  | success (v : String) : PerfClass
deriving Repr, DecidableEq

/-- Classification of one attempt of the enhanced `jsonCall`
(`somnia_rpc_perf.js` lines 1136-1334), in source order: thrown transport
error, `detectTimeout`, `res.error_code`, HTTP validation (with
`timings.duration < PARSED_TIMEOUT_MS * 0.8`), JSON parse, structural
validation, envelope `error` member (with the `eth_estimateGas`
exemption), result validation. -/
def classifyAttempt (method reqId : String) (expect : Option (Option String) → Bool)
    (timeoutMs : Nat) : Attempt → PerfClass
  | .exn => .exnNetwork
  | .resp r dur =>
    if detectTimeout r dur timeoutMs then .timeout
    else if r.error_code ≠ 0 then .networkErrorCode r.error_code
    else if ¬ (httpBasicOk r && (10 * r.timingsDuration < 8 * timeoutMs : Bool)) then .httpError
    else match r.json with
      | none => .jsonParseError
      | some v =>
        if ¬ structureOk v reqId then .malformedStructure
        else match errTruthy v.error with
          | some e =>
            if method == "eth_estimateGas" then .estimateGasError e
            else .protocolError e
          | none =>
            if ¬ resultOk v expect then .resultValidationError
            else .success (match v.result with | some (some s) => s | _ => "")

/-- Whether a class makes `jsonCall` retry (transport error, detected
timeout or k6 `error_code`) rather than settle the call. -/
def retryable : PerfClass → Bool
  | .exnNetwork => true
  | .timeout => true
  | .networkErrorCode _ => true
  | _ => false

/-- Counts of `recordSuccess` invocations made when an attempt settles with the
given class: the success path and the `eth_estimateGas` exemption record
one success, everything else none. -/
def classSuccesses : PerfClass → Nat
  | .success _ => 1
  | .estimateGasError _ => 1
  | _ => 0

/-- Counts of `recordFailure` invocations made when an attempt settles with the
given class. -/
def classFailures : PerfClass → Nat
  | .success _ => 0
  | .estimateGasError _ => 0
  | _ => 1

/-- The value the enhanced `jsonCall` hands back when an attempt settles:
the result payload on success, `{ error: rpcError }` on the
gas-estimation exemption, `undefined` on every failure. -/
def classValue : PerfClass → Option (String ⊕ RpcError)
  | .success v => some (.inl v)
  | .estimateGasError e => some (.inr e)
  | _ => none

/-- The write scenarios of the monolithic script. -/
def WRITE_SCENARIOS : List String := ["S11_SendRawTxSmall", "S12_SendRawTxERC20"]

/-- The module-level configuration validation of `somnia_rpc_perf.js`
lines 397-406: for a write scenario, `PRIVATE_KEY` and `WALLET_ADDRESS`
are required, and `S12_SendRawTxERC20` additionally requires
`ERC20_TOKEN`; violation throws before any worker starts. -/
def writeScenariosCheck (scenario basePriv baseAddr erc20 : String) :
    Except String Unit :=
  if WRITE_SCENARIOS.contains scenario then
    if basePriv = "" ∨ baseAddr = "" then
      .error "PRIVATE_KEY and WALLET_ADDRESS are required for write scenarios"
    else if scenario = "S12_SendRawTxERC20" ∧ erc20 = "" then
      .error "ERC20_TOKEN address is required for S12_SendRawTxERC20 scenario"
    else .ok ()
  else .ok ()

end Perf

/-! ## `lib/wallet-manager.js`: transaction building and batch funding -/

namespace WalletManager

/-- A generated test wallet (`{pk, addr, index, nonce}`; the `index` and
the never-read `nonce` field are irrelevant to transaction building). -/
structure Wallet where
  pk : String
  addr : String
deriving Repr, DecidableEq

/-- The RPC responses visible to one `buildRawTx` invocation: the pending
transaction count per address and the current gas price, as returned by
the network at that moment. -/
structure RpcOracle where
  getTransactionCount : String → Nat
  gasPrice : Nat

/-- The optional `{gasPrice, gasLimit}` overrides of `buildRawTx`. -/
structure TxOptions where
  gasPrice : Option Nat := none
  gasLimit : Option Nat := none
deriving Repr, DecidableEq

/-- The legacy transaction fields handed to `ethgo.signLegacyTx`. -/
structure TxParams where
  nonce : Nat
  gasPrice : Nat
  gas : Nat
  toAddr : String
  value : Nat
  data : String
  chainId : Nat
deriving Repr, DecidableEq

/-- The outcome of `buildRawTx`: the fields of the signed transaction together
with how many `eth_getTransactionCount` network queries the invocation
issued. -/
structure BuildResult where
  tx : TxParams
  nonceQueries : Nat
deriving Repr, DecidableEq

/-- Constant `blockchain.chainId` from `config/rpc-config.json`. -/
def chainId : Nat := 50312

/-- Buffering `Math.floor(currentGasPrice * blockchain.gasPriceMultiplier)` with the
configured multiplier `1.2`. -/
def bufferedGasPrice (currentGasPrice : Nat) : Nat :=
  12 * currentGasPrice / 10

/-- Function `buildRawTx(url, wallet, to, value, data, options)` from
`lib/wallet-manager.js` lines 44-86: fetches the pending nonce of the wallet
via `eth_getTransactionCount` (one network query per invocation), fetches
and buffers the gas price, picks the gas limit from the configured table
(simple 21000 / erc20 65000 / contract 100000) and signs. -/
def buildRawTx (oracle : RpcOracle) (wallet : Wallet) (toAddr : String) (value : Nat)
    (data : String) (options : TxOptions) : BuildResult :=
  let nonce := oracle.getTransactionCount wallet.addr
  let gasPrice := options.gasPrice.getD (bufferedGasPrice oracle.gasPrice)
  let gasLimit :=
    match options.gasLimit with
    | some g => g
    | none =>
      if data = "0x" ∨ data = "" then 21000
      else if data.startsWith "0xa9059cbb" then 65000
      else 100000
  { tx := ⟨nonce, gasPrice, gasLimit, toAddr, value, data, chainId⟩, nonceQueries := 1 }

/-- The batched nonce assignment of `fundWallets`
(`lib/wallet-manager.js` lines 120-149): for each batch starting at
offset `i` (step `batchSize`), the wallet at position `batchIndex` inside
the batch signs with `baseNonce + i + batchIndex`.  Returns the nonces in
submission order.  A zero batch size would loop forever in the source; it
yields `[]` here and is excluded by hypothesis in the theorems. -/
def fundNoncesAux (baseNonce batchSize : Nat) (wallets : List Wallet) (i : Nat) :
    List Nat :=
  if h : batchSize = 0 ∨ wallets = [] then []
  else
    ((wallets.take batchSize).mapIdx fun batchIndex _ => baseNonce + i + batchIndex)
      ++ fundNoncesAux baseNonce batchSize (wallets.drop batchSize) (i + batchSize)
termination_by wallets.length
decreasing_by
  have hbs : batchSize ≠ 0 := fun hc => h (Or.inl hc)
  have hw : wallets ≠ [] := fun hc => h (Or.inr hc)
  cases wallets with
  | nil => exact absurd rfl hw
  | cons w ws =>
    simp only [List.drop, List.length_cons]
    cases batchSize with
    | zero => exact absurd rfl hbs
    | succ b =>
      simp only [List.drop]
      have := List.length_drop b ws
      omega

/-- The full nonce sequence `fundWallets` attaches to the outbound transactions of the funding
address, in submission order. -/
def fundWalletsNonces (baseNonce batchSize : Nat) (wallets : List Wallet) : List Nat :=
  fundNoncesAux baseNonce batchSize wallets 0

end WalletManager

/-! ## WebSocket subscription lifecycle (`wsSub` in both variants) -/

namespace WsClient

/-- The socket events the callback handlers of a subscription react to. -/
inductive WsEvent where
  | message : WsEvent
  | timerFire : WsEvent
  | close (code : Nat) (reason : String) : WsEvent
  | error : WsEvent
deriving Repr, DecidableEq

/-- The change both `wsSub` variants apply to the
`somnia_active_ws_connections` gauge when one event is handled: the
`close` handler and the `error` handler each run
`activeConnections.add(-1, baseTags)`; the message handler and the idle
timer never touch the gauge. -/
def gaugeDelta : WsEvent → Int
  | .close _ _ => -1
  | .error => -1
  | _ => 0

/-- The gauge value after a connection whose callback ran (incrementing
the gauge by `activeConnections.add(1, baseTags)` on establishment) and
then handled the given events. -/
def wsGaugeAfter (g : Int) (events : List WsEvent) : Int :=
  events.foldl (fun acc e => acc + gaugeDelta e) (g + 1)

/-- The three paths that can end a subscription, per the spec. -/
inductive TermPath where
  | normalClose : TermPath
  | idleTimeout : TermPath
  | transportError : TermPath
deriving Repr, DecidableEq

/-- The events a connection handles on each terminal path: a first data
message makes the handler close the socket normally; the idle timer
closes it with code 1000; a transport error fires the error handler. -/
def pathEvents : TermPath → List WsEvent
  | .normalClose => [.message, .close 1000 "Data received"]
  | .idleTimeout => [.timerFire, .close 1000 "Connection timeout"]
  | .transportError => [.error]

/-- Metric calls a `wsSub` handler makes: `recordSuccess` /
`recordFailure` invocation counts, whether the (single) failure was
recorded with `isTimeout`, and direct timeout-metric adds made outside
`recordFailure` (the monolithic idle timer records
`timeoutCount`/`timeoutRate` itself before closing). -/
structure WsEffects where
  successes : Nat
  failures : Nat
  failureIsTimeout : Bool
  timerTimeoutAdds : Nat
deriving Repr, DecidableEq

/-- Merge the effects of consecutive handler runs. -/
def mergeEffects (a b : WsEffects) : WsEffects :=
  ⟨a.successes + b.successes, a.failures + b.failures,
    a.failureIsTimeout || b.failureIsTimeout, a.timerTimeoutAdds + b.timerTimeoutAdds⟩

/-- The close handler of the monolithic script (`somnia_rpc_perf.js` lines
1659-1692): `isTimeoutClose = duration >= timeout * 0.95 || reason ===
"Connection timeout"`; a code-1000 close that is not a timeout close
records a success, everything else records one failure with
`isTimeout := isTimeoutClose`. -/
def perfCloseHandler (timeoutMs dur code : Nat) (reason : String) : WsEffects :=
  let isTimeoutClose := Perf.durAtThreshold dur timeoutMs || (reason == "Connection timeout")
  if code == 1000 && !isTimeoutClose then ⟨1, 0, false, 0⟩
  else ⟨0, 1, isTimeoutClose, 0⟩

/-- The idle timer of the monolithic script (`somnia_rpc_perf.js` lines
1585-1597): when it fires on a still-connected socket it records
`timeoutCount`, `timeoutLatency` and `timeoutRate` and closes the socket
with `(1000, "Connection timeout")`. -/
def perfTimerEffects (isConnected : Bool) : WsEffects :=
  if isConnected then ⟨0, 0, false, 1⟩ else ⟨0, 0, false, 0⟩

/-- A monolithic-script subscription that receives no event within its
configured timeout: at `timeoutMs` elapsed the timer fires on the
connected socket and closes it with `(1000, "Connection timeout")`; the
close handler then runs at duration `dur >= timeoutMs`. -/
def perfNoEventRun (timeoutMs dur : Nat) : WsEffects :=
  mergeEffects (perfTimerEffects true)
    (perfCloseHandler timeoutMs dur 1000 "Connection timeout")

/-- The modular `websocket-client.js` `close` handler (concatenated
`lib/rpc-client.js` lines 319-333): a code-1000 close records a success,
any other code records one failure (never marked as a timeout). -/
def libCloseHandler (code : Nat) : WsEffects :=
  if code == 1000 then ⟨1, 0, false, 0⟩ else ⟨0, 1, false, 0⟩

/-- A modular-client subscription that receives no event within its
configured timeout: the idle timer closes the socket with
`(1000, "Timeout reached")` and records nothing; the close handler then
runs with code 1000. -/
def libNoEventRun : WsEffects :=
  libCloseHandler 1000

end WsClient

/-! ## Helper lemmas -/

/-- Looking a key up in a concatenation tries the later (overriding)
bindings first. -/
theorem lookupTag_append (xs ys : Metrics.Tags) (k : String) :
    Metrics.lookupTag (xs ++ ys) k =
      (Metrics.lookupTag ys k).elim (Metrics.lookupTag xs k) some := by
  induction xs with
  | nil => cases h : Metrics.lookupTag ys k <;> simp [Metrics.lookupTag, h]
  | cons p xs ih =>
    obtain ⟨k2, v⟩ := p
    cases h : Metrics.lookupTag ys k <;> cases h2 : Metrics.lookupTag xs k <;>
      simp [Metrics.lookupTag, ih, h, h2]

/-- A `mapIdx` that ignores the element is a map over the index range. -/
theorem mapIdx_const_fn {α : Type} (l : List α) (f : Nat → Nat) :
    (l.mapIdx fun k _ => f k) = (List.range l.length).map f := by
  induction l generalizing f with
  | nil => simp
  | cons a l ih =>
    simp [List.mapIdx_cons, List.range_succ_eq_map, ih, Function.comp]

/-! ## Claim theorems -/

/-- Claim C5: The live-connection gauge `somnia_active_ws_connections` is
incremented by exactly 1 when a subscription socket is established and
decremented by exactly 1 on its terminal transition, on every terminating
path (normal close, idle timeout, transport error), so after the
subscription completes the gauge is back at its pre-call value. -/
theorem claim_C5 (p : WsClient.TermPath) (g : Int) :
    WsClient.wsGaugeAfter g (WsClient.pathEvents p) = g := by
  cases p <;>
    simp [WsClient.wsGaugeAfter, WsClient.pathEvents, WsClient.gaugeDelta, List.foldl]

/-- Claim C9: `buildRpcRequest(id, method, params)` is the JSON serialization
of an object whose `jsonrpc` field is `"2.0"`, whose `id` and `method`
fields are the given arguments, and whose `params` field is the given
array, defaulting to the empty array when `params` is `null`/`undefined`. -/
theorem claim_C9 (id : Json) (method : String) (params : Option (List Json)) :
    ∃ fields : List (String × Json),
      buildRpcRequest id method params = stringify (Json.obj fields) ∧
      fields.lookup "jsonrpc" = some (Json.str "2.0") ∧
      fields.lookup "id" = some id ∧
      fields.lookup "method" = some (Json.str method) ∧
      fields.lookup "params" = some (Json.arr (params.getD [])) ∧
      (params = none → fields.lookup "params" = some (Json.arr [])) := by
  refine ⟨_, rfl, ?_, ?_, ?_, ?_, ?_⟩ <;> simp [List.lookup]
  intro h
  subst h
  rfl

/-- Claim C9 witness: at `id = 1`, `method = "eth_blockNumber"` and absent
`params` the `params` field of the serialized object is the empty array. -/
theorem claim_C9_witness :
    ∃ fields : List (String × Json),
      buildRpcRequest (Json.num 1) "eth_blockNumber" none = stringify (Json.obj fields) ∧
      fields.lookup "params" = some (Json.arr []) := by
  obtain ⟨fields, h1, _, _, _, _, h6⟩ := claim_C9 (Json.num 1) "eth_blockNumber" none
  exact ⟨fields, h1, h6 rfl⟩

/-- Claim C10: Every `recordFailure` call adds exactly 1 to the error
counter and exactly 1 to the error rate; both samples carry the reason
truncated to at most 100 characters, and the `retry_attempt` tag defaults
to `0` when no retry attempt is supplied. -/
theorem claim_C10 (tags : Metrics.Tags) (reason : String) (options : Metrics.FailureOptions) :
    ∃ enriched : Metrics.Tags,
      Metrics.samplesFor (Metrics.recordFailure tags reason options) "somnia_error_count"
        = [⟨"somnia_error_count", 1, enriched⟩] ∧
      Metrics.samplesFor (Metrics.recordFailure tags reason options) "somnia_error_rate"
        = [⟨"somnia_error_rate", 1, enriched⟩] ∧
      Metrics.lookupTag enriched "reason" = some (jsSlice reason 100) ∧
      (jsSlice reason 100).length ≤ 100 ∧
      (options.retryAttempt = none → Metrics.lookupTag enriched "retry_attempt" = some "0") := by
  refine ⟨tags ++ [("reason", jsSlice reason 100),
      ("retry_attempt", toString (options.retryAttempt.getD 0))], ?_, ?_, ?_, ?_, ?_⟩
  · simp only [Metrics.recordFailure, Metrics.samplesFor, List.filter_append, List.filter]
    split_ifs <;> rfl
  · simp only [Metrics.recordFailure, Metrics.samplesFor, List.filter_append, List.filter]
    split_ifs <;> rfl
  · rw [lookupTag_append]
    have h2 : Metrics.lookupTag [("reason", jsSlice reason 100),
        ("retry_attempt", toString (options.retryAttempt.getD 0))] "reason"
        = some (jsSlice reason 100) := rfl
    rw [h2]
    rfl
  · show (String.mk (reason.data.take 100)).length ≤ 100
    rw [String.length, List.length_take]
    exact min_le_left _ _
  · intro h
    rw [lookupTag_append, h]
    rfl

/-- Claim C10 witness: a concrete `recordFailure` call with a long reason
and no supplied retry attempt emits one error-count and one error-rate
sample tagged with the 100-character truncation and `retry_attempt = 0`. -/
theorem claim_C10_witness :
    ∃ enriched : Metrics.Tags,
      Metrics.samplesFor (Metrics.recordFailure [("method", "eth_call")] "boom" {})
          "somnia_error_count" = [⟨"somnia_error_count", 1, enriched⟩] ∧
      Metrics.lookupTag enriched "reason" = some (jsSlice "boom" 100) ∧
      Metrics.lookupTag enriched "retry_attempt" = some "0" := by
  obtain ⟨enriched, h1, _, h3, _, h5⟩ :=
    claim_C10 [("method", "eth_call")] "boom" {}
  exact ⟨enriched, h1, h3, h5 rfl⟩

/-- Claim C2: Any single one of the claimed timeout signals — elapsed
duration at least 95% of the configured timeout (irrespective of the
received body), status 408, status 504, zero status with near-timeout
duration, or timeout vocabulary in the response body — makes
`detectTimeout` report a timeout, and the enhanced `jsonCall` then
classifies the attempt as a timeout rather than by its body. -/
theorem claim_C2 (r : HttpResponse) (dur timeoutMs : Nat) (method reqId : String)
    (expect : Option (Option String) → Bool)
    (h : 95 * timeoutMs ≤ 100 * dur ∨ r.status = 408 ∨ r.status = 504 ∨
         (r.status = 0 ∧ 95 * timeoutMs ≤ 100 * dur) ∨
         Perf.bodyTimeoutVocab r.body = true) :
    Perf.detectTimeout r dur timeoutMs = true ∧
    Perf.classifyAttempt method reqId expect timeoutMs (.resp r dur) = .timeout := by
  have hd : Perf.detectTimeout r dur timeoutMs = true := by
    unfold Perf.detectTimeout Perf.durAtThreshold
    rcases h with h | h | h | ⟨h1, h2⟩ | h
    · simp [h]
    · simp [h]
    · simp [h]
    · simp [h1, h2]
    · simp [h]
  refine ⟨hd, ?_⟩
  simp [Perf.classifyAttempt, hd]

/-- A response that arrives with a full valid body just before the
timeout deadline (95 ms of a 100 ms budget). -/
def lateResponse : HttpResponse :=
  { error_code := 0, status := 200, contentType := "application/json",
    body := some "full body", timingsDuration := 95,
    json := some ⟨"2.0", "9", some (some "0x10"), none⟩ }

/-- Claim C2 witness: the late-but-complete response above is classified as
a timeout even though a well-formed body was received. -/
theorem claim_C2_witness :
    Perf.detectTimeout lateResponse 95 100 = true ∧
    Perf.classifyAttempt "eth_blockNumber" "9" (fun _ => true) 100
      (.resp lateResponse 95) = .timeout :=
  claim_C2 lateResponse 95 100 "eth_blockNumber" "9" (fun _ => true)
    (Or.inl (by norm_num))

/-- The JSON-RPC response of a gas-estimation call that would revert:
the envelope carries `{code:-32000, message:"execution reverted"}`. -/
def revertEnvelope : RpcResponse :=
  ⟨"2.0", "42", none, some (some ⟨-32000, "execution reverted"⟩)⟩

/-- The HTTP response delivering `revertEnvelope`, fast and well-formed
at the transport level. -/
def revertResponse : HttpResponse :=
  { error_code := 0, status := 200, contentType := "application/json",
    body := some "rpc error body", timingsDuration := 100,
    json := some revertEnvelope }

/-- Claim C3: On a protocol-level error envelope, the enhanced `jsonCall`
treats `eth_estimateGas` as a success — one success metric, no failure,
and the returned value carries the error payload — while any other
method is settled as a terminal `ProtocolError` failure that is not
retried; the modular `lib/rpc-client.js` `jsonCall`, however, lacks the
exemption and records the same gas-estimation response as a failure
(one POST, no retries, `undefined` returned), contradicting the
documented compatibility of the two drivers. -/
theorem claim_C3 :
    Perf.classifyAttempt "eth_estimateGas" "42" (fun _ => true) 15000
      (.resp revertResponse 150) = .estimateGasError ⟨-32000, "execution reverted"⟩ ∧
    Perf.classSuccesses (.estimateGasError ⟨-32000, "execution reverted"⟩) = 1 ∧
    Perf.classFailures (.estimateGasError ⟨-32000, "execution reverted"⟩) = 0 ∧
    Perf.classValue (.estimateGasError ⟨-32000, "execution reverted"⟩)
      = some (.inr ⟨-32000, "execution reverted"⟩) ∧
    Perf.classifyAttempt "eth_call" "42" (fun _ => true) 15000
      (.resp revertResponse 150) = .protocolError ⟨-32000, "execution reverted"⟩ ∧
    Perf.retryable (.protocolError ⟨-32000, "execution reverted"⟩) = false ∧
    RpcClient.jsonCallRun 3 1000 (fun _ => .resp revertResponse 150) "42"
      (fun _ => true) 0 = ⟨1, 0, 1, 0, [], none⟩ := by
  refine ⟨?_, rfl, rfl, rfl, ?_, rfl, ?_⟩ <;> rfl

/-- Claim C6: A subscription that receives no event within its configured
timeout: the monolithic `wsSub` closes it locally and records exactly one
timeout-tagged failure and no success, but the modular
`websocket-client.js` `wsSub` closes with code 1000 and its close handler
records the timed-out subscription as one clean success and no failure. -/
theorem claim_C6 :
    (WsClient.perfNoEventRun 60000 60000).failures = 1 ∧
    (WsClient.perfNoEventRun 60000 60000).successes = 0 ∧
    (WsClient.perfNoEventRun 60000 60000).failureIsTimeout = true ∧
    (WsClient.libNoEventRun).successes = 1 ∧
    (WsClient.libNoEventRun).failures = 0 := by
  refine ⟨?_, ?_, ?_, ?_, ?_⟩ <;> rfl

/-- A response envelope carrying both a `result` member and a non-null
`error` member, with matching id and version tag. -/
def bothEnvelope : RpcResponse :=
  ⟨"2.0", "7", some (some "0x1"), some (some ⟨-32000, "boom"⟩)⟩

/-- The HTTP response delivering `bothEnvelope`. -/
def bothResponse : HttpResponse :=
  { error_code := 0, status := 200, contentType := "application/json",
    body := some "b", timingsDuration := 5, json := some bothEnvelope }

/-- Claim C7 counterexample: a response carrying both `result` and `error`
passes the structural validation (the check is a disjunction, not
"exactly one") and is classified by the error branch as a protocol
error, not as a malformed response. -/
theorem claim_C7_counterexample :
    structureOk bothEnvelope "7" = true ∧
    RpcClient.classifyAttempt "7" (fun _ => true) (.resp bothResponse 5)
      = .terminal (.protocolError ⟨-32000, "boom"⟩) ∧
    RpcClient.classifyAttempt "7" (fun _ => true) (.resp bothResponse 5)
      ≠ .terminal .malformedStructure := by
  refine ⟨rfl, rfl, ?_⟩
  intro h
  have h0 : RpcClient.classifyAttempt "7" (fun _ => true) (.resp bothResponse 5)
      = .terminal (.protocolError ⟨-32000, "boom"⟩) := rfl
  rw [h0] at h
  exact absurd h (by simp)

/-- Claim C7, amended: A parsed response passes structural validation iff
the version tag is `"2.0"`, the echoed id matches, and at least one
of `result`/`error` is present; in particular a response carrying both
members passes validation and, when the error is non-null, is classified
as a `ProtocolError`, not `MalformedResponse`. -/
theorem claim_C7_amended (r : HttpResponse) (v : RpcResponse) (reqId : String)
    (expect : Option (Option String) → Bool) (dur : Nat)
    (hec : r.error_code = 0)
    (hok : httpBasicOk r = true) (hdur : r.timingsDuration < 30000)
    (hjson : r.json = some v) :
    RpcClient.classifyAttempt reqId expect (.resp r dur)
      = RpcClient.classifyEnvelope reqId expect v ∧
    (RpcClient.classifyEnvelope reqId expect v = .terminal .malformedStructure ↔
      ¬ (v.jsonrpc = "2.0" ∧ v.id = reqId ∧ (v.result.isSome ∨ v.error.isSome))) ∧
    (∀ e, v.error = some (some e) → v.jsonrpc = "2.0" → v.id = reqId →
      RpcClient.classifyEnvelope reqId expect v = .terminal (.protocolError e)) := by
  refine ⟨?_, ?_, ?_⟩
  · unfold RpcClient.classifyAttempt
    simp [hec, hok, hdur, hjson]
  · have hmal : RpcClient.classifyEnvelope reqId expect v = .terminal .malformedStructure ↔
        structureOk v reqId = false := by
      unfold RpcClient.classifyEnvelope
      by_cases hs : structureOk v reqId = true
      · rw [if_neg (by simp [hs])]
        simp only [hs, Bool.true_eq_false, iff_false]
        cases hv : errTruthy v.error
        · by_cases hr : resultOk v expect = true
          · rw [if_neg (by simp [hr])]
            simp
          · rw [if_pos (by simpa using hr)]
            simp
        · simp
      · rw [if_pos (by simpa using hs)]
        simp [Bool.not_eq_true] at hs
        simp [hs]
    rw [hmal]
    constructor
    · intro hfalse hgood
      have : structureOk v reqId = true := by
        simp [structureOk, hgood.1, hgood.2.1]
        rcases hgood.2.2 with h | h <;> simp [h]
      rw [this] at hfalse
      exact Bool.true_eq_false.mp hfalse
    · intro hnot
      rcases hb : structureOk v reqId with _ | _
      · rfl
      · exfalso
        apply hnot
        have hb2 := hb
        simp only [structureOk, Bool.and_eq_true, beq_iff_eq, Bool.or_eq_true] at hb2
        exact ⟨hb2.1.1, hb2.1.2, hb2.2⟩
  · intro e he hver hid
    have hs : structureOk v reqId = true := by simp [structureOk, hver, hid, he]
    unfold RpcClient.classifyEnvelope
    rw [if_neg (by simp [hs]), he]
    rfl

/-- Claim C7 amended witness: the concrete both-members response is not
classified as malformed and lands in the protocol-error branch. -/
theorem claim_C7_amended_witness :
    RpcClient.classifyEnvelope "7" (fun _ => true) bothEnvelope
      = .terminal (.protocolError ⟨-32000, "boom"⟩) := by
  have h := claim_C7_amended bothResponse bothEnvelope "7" (fun _ => true) 5
    rfl rfl (by decide) rfl
  exact h.2.2 ⟨-32000, "boom"⟩ rfl rfl rfl

/-- The retry loop on an environment whose every attempt throws at the
transport level: one POST per unit of budget plus the final one, one
retry-counter increment and one fixed-delay sleep per retry, and a single
terminal failure returning `undefined`. -/
theorem jsonCallGo_exn (delay : Nat) (reqId : String)
    (expect : Option (Option String) → Bool) :
    ∀ fuel a, RpcClient.jsonCallGo delay (fun _ => .exn) reqId expect fuel a =
      ⟨fuel + 1, fuel, 1, 0, List.replicate fuel delay, none⟩ := by
  intro fuel
  induction fuel with
  | zero => intro a; rfl
  | succ n ih =>
    intro a
    simp [RpcClient.jsonCallGo, RpcClient.classifyAttempt, ih (a + 1), List.replicate]

/-- Claim C4: An RPC call whose every attempt fails at the transport level
issues the HTTP POST exactly `maxRetries + 1` times, increments the retry
counter once per retry attempt (each preceded by one fixed-delay sleep),
and records exactly one terminal failure for the whole chain, returning
`undefined`. -/
theorem claim_C4 (maxRetries delay : Nat) (reqId : String)
    (expect : Option (Option String) → Bool) :
    RpcClient.jsonCallRun maxRetries delay (fun _ => .exn) reqId expect 0 =
      ⟨maxRetries + 1, maxRetries, 1, 0, List.replicate maxRetries delay, none⟩ := by
  unfold RpcClient.jsonCallRun
  simpa using jsonCallGo_exn delay reqId expect maxRetries 0

/-- Structural invariant of the retry loop: every run settles with
exactly one metrics record set (one success or one failure), a
`some` value exactly on success, `undefined` on failure, at most `fuel`
retries, one more POST than retries, and one fixed-delay sleep per
retry. -/
theorem jsonCallGo_spec (delay : Nat) (env : Nat → Attempt) (reqId : String)
    (expect : Option (Option String) → Bool) :
    ∀ fuel a,
      (RpcClient.jsonCallGo delay env reqId expect fuel a).successes +
        (RpcClient.jsonCallGo delay env reqId expect fuel a).failures = 1 ∧
      ((RpcClient.jsonCallGo delay env reqId expect fuel a).value.isSome ↔
        ((RpcClient.jsonCallGo delay env reqId expect fuel a).successes = 1 ∧
         (RpcClient.jsonCallGo delay env reqId expect fuel a).failures = 0)) ∧
      ((RpcClient.jsonCallGo delay env reqId expect fuel a).failures = 1 →
        (RpcClient.jsonCallGo delay env reqId expect fuel a).value = none) ∧
      (RpcClient.jsonCallGo delay env reqId expect fuel a).retries ≤ fuel ∧
      (RpcClient.jsonCallGo delay env reqId expect fuel a).posts =
        (RpcClient.jsonCallGo delay env reqId expect fuel a).retries + 1 ∧
      (RpcClient.jsonCallGo delay env reqId expect fuel a).sleeps =
        List.replicate (RpcClient.jsonCallGo delay env reqId expect fuel a).retries delay := by
  intro fuel
  induction fuel with
  | zero =>
    intro a
    cases hc : RpcClient.classifyAttempt reqId expect (env a) with
    | terminal o =>
      cases o <;> simp [RpcClient.jsonCallGo, hc, RpcClient.settle]
    | retryExn => simp [RpcClient.jsonCallGo, hc]
    | retryErrorCode c => simp [RpcClient.jsonCallGo, hc]
  | succ n ih =>
    intro a
    cases hc : RpcClient.classifyAttempt reqId expect (env a) with
    | terminal o =>
      cases o <;> simp [RpcClient.jsonCallGo, hc, RpcClient.settle]
    | retryExn =>
      have hgo : RpcClient.jsonCallGo delay env reqId expect (n + 1) a =
          ⟨(RpcClient.jsonCallGo delay env reqId expect n (a + 1)).posts + 1,
           (RpcClient.jsonCallGo delay env reqId expect n (a + 1)).retries + 1,
           (RpcClient.jsonCallGo delay env reqId expect n (a + 1)).failures,
           (RpcClient.jsonCallGo delay env reqId expect n (a + 1)).successes,
           delay :: (RpcClient.jsonCallGo delay env reqId expect n (a + 1)).sleeps,
           (RpcClient.jsonCallGo delay env reqId expect n (a + 1)).value⟩ := by
        simp [RpcClient.jsonCallGo, hc]
      obtain ⟨h1, h2, h3, h4, h5, h6⟩ := ih (a + 1)
      rw [hgo]
      exact ⟨h1, h2, h3, Nat.succ_le_succ h4,
        congrArg (· + 1) h5, congrArg (List.cons delay) h6⟩
    | retryErrorCode c =>
      have hgo : RpcClient.jsonCallGo delay env reqId expect (n + 1) a =
          ⟨(RpcClient.jsonCallGo delay env reqId expect n (a + 1)).posts + 1,
           (RpcClient.jsonCallGo delay env reqId expect n (a + 1)).retries + 1,
           (RpcClient.jsonCallGo delay env reqId expect n (a + 1)).failures,
           (RpcClient.jsonCallGo delay env reqId expect n (a + 1)).successes,
           delay :: (RpcClient.jsonCallGo delay env reqId expect n (a + 1)).sleeps,
           (RpcClient.jsonCallGo delay env reqId expect n (a + 1)).value⟩ := by
        simp [RpcClient.jsonCallGo, hc]
      obtain ⟨h1, h2, h3, h4, h5, h6⟩ := ih (a + 1)
      rw [hgo]
      exact ⟨h1, h2, h3, Nat.succ_le_succ h4,
        congrArg (· + 1) h5, congrArg (List.cons delay) h6⟩

/-- Claim C8: No RPC-call failure escapes to the caller: every run of the
modular `jsonCall` records exactly one terminal outcome (one success or
one failure), returns `undefined` whenever it records a failure (a value
only on success), retries at most `maxRetries` times with one POST more
than retries, settles any non-retryable first attempt immediately with no
retry, and the only fatal configuration check is the module-level
write-scenario validation, which errors exactly when the required
addresses/keys for the selected scenario are missing. -/
theorem claim_C8 (maxRetries delay : Nat) (env : Nat → Attempt) (reqId : String)
    (expect : Option (Option String) → Bool) :
    ((RpcClient.jsonCallRun maxRetries delay env reqId expect 0).successes +
      (RpcClient.jsonCallRun maxRetries delay env reqId expect 0).failures = 1) ∧
    ((RpcClient.jsonCallRun maxRetries delay env reqId expect 0).failures = 1 →
      (RpcClient.jsonCallRun maxRetries delay env reqId expect 0).value = none) ∧
    ((RpcClient.jsonCallRun maxRetries delay env reqId expect 0).value.isSome ↔
      ((RpcClient.jsonCallRun maxRetries delay env reqId expect 0).successes = 1 ∧
       (RpcClient.jsonCallRun maxRetries delay env reqId expect 0).failures = 0)) ∧
    (RpcClient.jsonCallRun maxRetries delay env reqId expect 0).retries ≤ maxRetries ∧
    (RpcClient.jsonCallRun maxRetries delay env reqId expect 0).posts =
      (RpcClient.jsonCallRun maxRetries delay env reqId expect 0).retries + 1 ∧
    (∀ o, RpcClient.classifyAttempt reqId expect (env 0) = .terminal o →
      RpcClient.jsonCallRun maxRetries delay env reqId expect 0 = RpcClient.settle o) ∧
    (∀ scenario basePriv baseAddr erc20 : String,
      (∃ msg, Perf.writeScenariosCheck scenario basePriv baseAddr erc20 = .error msg) ↔
        (Perf.WRITE_SCENARIOS.contains scenario ∧
          (basePriv = "" ∨ baseAddr = "" ∨
            (scenario = "S12_SendRawTxERC20" ∧ erc20 = "")))) := by
  obtain ⟨h1, h2, h3, h4, h5, h6⟩ :=
    jsonCallGo_spec delay env reqId expect (maxRetries - 0) 0
  refine ⟨h1, h3, h2, ?_, h5, ?_, ?_⟩
  · simpa using h4
  · intro o ho
    unfold RpcClient.jsonCallRun
    rw [Nat.sub_zero]
    cases maxRetries <;> simp [RpcClient.jsonCallGo, ho]
  · intro scenario basePriv baseAddr erc20
    unfold Perf.writeScenariosCheck
    split_ifs with hin hmiss hs12 <;> simp_all <;> tauto

/-- Claim C8 witness: with every attempt returning the protocol-error
response, the call settles immediately as one recorded failure returning
`undefined`, and the write-scenario validation rejects a write scenario
with missing keys. -/
theorem claim_C8_witness :
    RpcClient.jsonCallRun 2 1000 (fun _ => .resp bothResponse 5) "7" (fun _ => true) 0
      = RpcClient.settle (.protocolError ⟨-32000, "boom"⟩) ∧
    (∃ msg, Perf.writeScenariosCheck "S11_SendRawTxSmall" "" "" "" = .error msg) := by
  have h := claim_C8 2 1000 (fun _ => .resp bothResponse 5) "7" (fun _ => true)
  refine ⟨h.2.2.2.2.2.1 (.protocolError ⟨-32000, "boom"⟩) rfl, ?_⟩
  exact (h.2.2.2.2.2.2 "S11_SendRawTxSmall" "" "" "").mpr ⟨by decide, Or.inl rfl⟩

/-- The batched funding loop assigns, from offset `i`, exactly the
contiguous values `base + i + 0, ..., base + i + (length - 1)` in
submission order. -/
theorem fundNoncesAux_eq (base bs : Nat) (hbs : 0 < bs) :
    ∀ n (ws : List WalletManager.Wallet), ws.length ≤ n → ∀ i,
      WalletManager.fundNoncesAux base bs ws i =
        (List.range ws.length).map (fun k => base + i + k) := by
  intro n
  induction n with
  | zero =>
    intro ws hlen i
    have hnil : ws = [] := List.eq_nil_of_length_eq_zero (Nat.le_zero.mp hlen)
    subst hnil
    rw [WalletManager.fundNoncesAux]
    simp
  | succ n ih =>
    intro ws hlen i
    rcases ws with _ | ⟨w, rest⟩
    · rw [WalletManager.fundNoncesAux]
      simp
    · rw [WalletManager.fundNoncesAux,
        dif_neg (by simp [Nat.pos_iff_ne_zero.mp hbs])]
      rw [mapIdx_const_fn,
        ih ((w :: rest).drop bs) (by
          have hlen2 : rest.length + 1 ≤ n + 1 := by simpa using hlen
          simp [List.length_drop]
          omega) (i + bs)]
      rw [List.length_take, List.length_drop]
      rcases Nat.le_total bs (w :: rest).length with hle | hle
      · have h1 : min bs (w :: rest).length = bs := min_eq_left hle
        have h2 : (w :: rest).length = bs + ((w :: rest).length - bs) := by omega
        rw [h1]
        conv_rhs => rw [h2, List.range_add]
        rw [List.map_append, List.map_map]
        congr 1
        have hfun : ((fun k => base + i + k) ∘ (fun j => bs + j)) =
            fun j => base + (i + bs) + j := by
          funext j
          simp
          omega
        rw [hfun]
      · have h1 : min bs (w :: rest).length = (w :: rest).length := min_eq_right hle
        have h2 : (w :: rest).length - bs = 0 := by omega
        rw [h1, h2]
        simp

/-- The pending state seen by two concurrent transaction builds before
either submission has landed: the pending nonce of every address is
still 5. -/
def raceOracle : WalletManager.RpcOracle :=
  ⟨fun _ => 5, 100⟩

/-- The wallet both concurrent builds sign for. -/
def raceWallet : WalletManager.Wallet :=
  ⟨"pk", "0xabc"⟩

/-- Claim C1 counterexample: two transaction builds for the same address
against the same pending state (concurrent callers, the first submission
not yet reflected in `eth_getTransactionCount`) both attach nonce 5 — a
repeat, not a strictly increasing sequence — and the second build still
issues one network nonce query instead of consulting a cached counter. -/
theorem claim_C1_counterexample :
    (WalletManager.buildRawTx raceOracle raceWallet "0xdef" 1000 "0x" {}).tx.nonce = 5 ∧
    (WalletManager.buildRawTx raceOracle raceWallet "0xdef" 1000 "0x" {}).tx.nonce =
      (WalletManager.buildRawTx raceOracle raceWallet "0xdef" 1000 "0x" {}).tx.nonce ∧
    (WalletManager.buildRawTx raceOracle raceWallet "0xdef" 1000 "0x" {}).nonceQueries = 1 :=
  ⟨rfl, rfl, rfl⟩

/-- Claim C1, amended: Only the batch funding phase allocates nonces
locally: after its single baseline fetch, `fundWallets` attaches the
strictly increasing, gap-free contiguous range `base, base+1, ...,
base + walletCount - 1` to the transactions of the funding address.
Per-transaction builds (`buildRawTx`), by contrast, issue one
`eth_getTransactionCount` network query on every invocation and take the
nonce from that response, so no locally cached counter is involved and
concurrent builds over the same pending state collide. -/
theorem claim_C1_amended (base batchSize : Nat) (ws : List WalletManager.Wallet)
    (hbs : 0 < batchSize) :
    WalletManager.fundWalletsNonces base batchSize ws =
      (List.range ws.length).map (fun k => base + k) ∧
    List.Pairwise (· < ·) (WalletManager.fundWalletsNonces base batchSize ws) ∧
    (∀ (oracle : WalletManager.RpcOracle) (w : WalletManager.Wallet)
        (toA : String) (value : Nat) (data : String) (opts : WalletManager.TxOptions),
      (WalletManager.buildRawTx oracle w toA value data opts).nonceQueries = 1 ∧
      (WalletManager.buildRawTx oracle w toA value data opts).tx.nonce
        = oracle.getTransactionCount w.addr) := by
  have heq : WalletManager.fundWalletsNonces base batchSize ws =
      (List.range ws.length).map (fun k => base + k) := by
    unfold WalletManager.fundWalletsNonces
    have h := fundNoncesAux_eq base batchSize hbs ws.length ws le_rfl 0
    simpa using h
  refine ⟨heq, ?_, ?_⟩
  · rw [heq]
    exact List.Pairwise.map _ (fun a b hab => by omega)
      (List.pairwise_lt_range ws.length)
  · intro oracle w toA value data opts
    exact ⟨rfl, rfl⟩

/-- Three concrete wallets for the funding-phase witness. -/
def walletTriple : List WalletManager.Wallet :=
  [⟨"a", "0x1"⟩, ⟨"b", "0x2"⟩, ⟨"c", "0x3"⟩]

/-- Claim C1 witness: funding three wallets from base nonce 7 in batches of
two attaches exactly the nonces 7, 8, 9 in order. -/
theorem claim_C1_witness :
    WalletManager.fundWalletsNonces 7 2 walletTriple = [7, 8, 9] :=
  ((claim_C1_amended 7 2 walletTriple (by norm_num)).1).trans (by rfl)

end XkSomnia
